import Mathlib

/-!
Shallow embedding of the selection-handoff core of the icon MCP server
(`src/icon_mcp/utils/cache.py`, `src/icon_mcp/utils/web_server.py`,
`src/icon_mcp/server.py`, `src/icon_mcp/utils/search.py`).

Modelling conventions:
* A Python `dict[str, V]` is modelled as a key-unique association list
  `List (String × V)`; `setAL` removes any previous binding and appends,
  `eraseAL` filters the key out, `lookupAL` finds the first binding.
* `time.time()` is an explicit `now : Int` argument threaded to each
  operation that reads the clock (units are irrelevant to the logic).
* Payloads that Python types as `Any` are type parameters: `ι` for icon
  cache data, `σ` for search cache data, `κ` for one selected item.
* Blocking (`asyncio.sleep`) is made explicit: the polling loop counts its
  sleeps, and the websocket close handler reports the milliseconds slept.
-/

namespace IconMcp

/-- `SelectionStatus` from models.py. -/
inductive SelectionStatus : Type
| waiting
| completed
| failed
| timeoutStatus
deriving DecidableEq

/-- `SelectionData` from models.py: user selection state tracked via the
websocket, with items of type `κ`. -/
structure SelectionData (κ : Type) : Type where
  status : SelectionStatus
  search_id : String
  timestamp : Int
  connected : Bool
  selected_icons : List κ
deriving DecidableEq

/-- `CacheEntry` from models.py: a cached item with a creation timestamp. -/
structure CacheEntry (α : Type) : Type where
  data : α
  timestamp : Int
  key : String
deriving DecidableEq

/-- First binding of `k` in an association list (`dict[k]` / `dict.get(k)`). -/
def lookupAL {β : Type} : List (String × β) → String → Option β
| [], _ => none
| p :: rest, k => if p.1 = k then some p.2 else lookupAL rest k

/-- Remove the binding of `k` (`del dict[k]` / `dict.pop(k, None)`). -/
def eraseAL {β : Type} : List (String × β) → String → List (String × β)
| [], _ => []
| p :: rest, k => if p.1 = k then eraseAL rest k else p :: eraseAL rest k

/-- Bind `k` to `v` (`dict[k] = v`), keeping keys unique. -/
def setAL {β : Type} (m : List (String × β)) (k : String) (v : β) : List (String × β) :=
  eraseAL m k ++ [(k, v)]

/-- Well-formedness of the dict model: keys occur at most once. -/
def nodupKeys {β : Type} (m : List (String × β)) : Prop :=
  (m.map Prod.fst).Nodup

/-- `CacheManager` from cache.py: three namespaces and a TTL. -/
structure CacheManager (ι σ κ : Type) : Type where
  expiry_seconds : Int
  icon_cache : List (String × CacheEntry ι)
  search_cache : List (String × CacheEntry σ)
  selection_cache : List (String × SelectionData κ)
deriving DecidableEq

variable {ι σ κ : Type}

/-- `CacheManager.get_icon`: read an icon entry; an entry older than the TTL
is evicted by the read itself and reported absent. -/
def get_icon (c : CacheManager ι σ κ) (now : Int) (key : String) :
    Option ι × CacheManager ι σ κ :=
  match lookupAL c.icon_cache key with
  | none => (none, c)
  | some e =>
    if c.expiry_seconds < now - e.timestamp then
      (none, { c with icon_cache := eraseAL c.icon_cache key })
    else
      (some e.data, c)

/-- `CacheManager.set_icon`. -/
def set_icon (c : CacheManager ι σ κ) (now : Int) (key : String) (v : ι) :
    CacheManager ι σ κ :=
  { c with icon_cache := setAL c.icon_cache key ⟨v, now, key⟩ }

/-- `CacheManager.get_search`: same lazy-expiry read on the search namespace. -/
def get_search (c : CacheManager ι σ κ) (now : Int) (key : String) :
    Option σ × CacheManager ι σ κ :=
  match lookupAL c.search_cache key with
  | none => (none, c)
  | some e =>
    if c.expiry_seconds < now - e.timestamp then
      (none, { c with search_cache := eraseAL c.search_cache key })
    else
      (some e.data, c)

/-- `CacheManager.set_search`. -/
def set_search (c : CacheManager ι σ κ) (now : Int) (key : String) (v : σ) :
    CacheManager ι σ κ :=
  { c with search_cache := setAL c.search_cache key ⟨v, now, key⟩ }

/-- `CacheManager.get_selection`: plain read, no TTL. -/
def get_selection (c : CacheManager ι σ κ) (sid : String) : Option (SelectionData κ) :=
  lookupAL c.selection_cache sid

/-- `CacheManager.set_selection`. -/
def set_selection (c : CacheManager ι σ κ) (sid : String) (d : SelectionData κ) :
    CacheManager ι σ κ :=
  { c with selection_cache := setAL c.selection_cache sid d }

/-- `CacheManager.delete_selection`. -/
def delete_selection (c : CacheManager ι σ κ) (sid : String) : CacheManager ι σ κ :=
  { c with selection_cache := eraseAL c.selection_cache sid }

/-- The record produced by `CacheManager.get_stats`. -/
structure CacheStats : Type where
  icon_valid : Nat
  icon_expired : Nat
  icon_total : Nat
  search_valid : Nat
  search_expired : Nat
  search_total : Nat
  selection_total : Nat
  cache_expiry_minutes : Int
deriving DecidableEq

/-- `CacheManager.get_stats`: per-namespace valid/expired/total, computed by
re-checking ages without mutating, plus the raw selection count. -/
def get_stats (c : CacheManager ι σ κ) (now : Int) : CacheStats :=
  let iconValid :=
    (c.icon_cache.filter fun p => decide (now - p.2.timestamp ≤ c.expiry_seconds)).length
  let searchValid :=
    (c.search_cache.filter fun p => decide (now - p.2.timestamp ≤ c.expiry_seconds)).length
  { icon_valid := iconValid
    icon_expired := c.icon_cache.length - iconValid
    icon_total := c.icon_cache.length
    search_valid := searchValid
    search_expired := c.search_cache.length - searchValid
    search_total := c.search_cache.length
    selection_total := c.selection_cache.length
    cache_expiry_minutes := c.expiry_seconds / 60 }

/-- The `for key in list(d.keys()): if expired: del d[key]; cleared += 1`
loop of `CacheManager.clear(expired_only=True)`, on one namespace. -/
def clear_expired_ns {α : Type} (now exp : Int) :
    List String → List (String × CacheEntry α) → Nat × List (String × CacheEntry α)
| [], m => (0, m)
| k :: ks, m =>
  match lookupAL m k with
  | some e =>
    if exp < now - e.timestamp then
      let r := clear_expired_ns now exp ks (eraseAL m k)
      (r.1 + 1, r.2)
    else
      clear_expired_ns now exp ks m
  | none => clear_expired_ns now exp ks m

/-- `CacheManager.clear`: either sweep expired entries from the two
timestamped namespaces, or empty them both; returns per-namespace counts. -/
def clear (c : CacheManager ι σ κ) (now : Int) (expired_only : Bool) :
    (Nat × Nat) × CacheManager ι σ κ :=
  if expired_only then
    let ri := clear_expired_ns now c.expiry_seconds (c.icon_cache.map Prod.fst) c.icon_cache
    let rs := clear_expired_ns now c.expiry_seconds (c.search_cache.map Prod.fst) c.search_cache
    ((ri.1, rs.1), { c with icon_cache := ri.2, search_cache := rs.2 })
  else
    ((c.icon_cache.length, c.search_cache.length),
      { c with icon_cache := [], search_cache := [] })

/-- The inner dict stored by `set_search` in search.py (the SearchRecord). -/
structure SearchData (κ : Type) : Type where
  query : String
  page : Nat
  page_size : Nat
  icons : List κ
  total_count : Nat
  timestamp : Int
deriving DecidableEq

/-- JSON response of `WebServer._handle_cache_api`. -/
inductive CacheApiResponse (κ : Type) : Type
| ok (icons : List κ) (count : Nat) (totalCount : Nat) (page : Nat)
    (pageSize : Nat) (totalPages : Nat)
| notFound
deriving DecidableEq

/-- `WebServer._handle_cache_api` from web_server.py: slice the cached
SearchRecord's icon list client-side. Unknown ids give a 404. -/
def handle_cache_api (c : CacheManager ι (SearchData κ) κ) (now : Int)
    (sid : String) (page pageSize : Nat) :
    CacheApiResponse κ × CacheManager ι (SearchData κ) κ :=
  match get_search c now sid with
  | (none, c1) => (.notFound, c1)
  | (some d, c1) =>
    let start := (page - 1) * pageSize
    let pageIcons := (d.icons.drop start).take pageSize
    (.ok pageIcons pageIcons.length d.total_count page pageSize
      (max 1 ((d.icons.length + pageSize - 1) / pageSize)), c1)

/-- JSON response of `WebServer._handle_save_api`. -/
inductive SaveApiResponse : Type
| ok (count : Nat)
| badRequest
deriving DecidableEq

/-- `WebServer._handle_save_api` from web_server.py: the submission endpoint;
writes a COMPLETED record carrying the submitted items. -/
def handle_save_api (c : CacheManager ι σ κ) (now : Int) (sid : String)
    (icons : List κ) : SaveApiResponse × CacheManager ι σ κ :=
  if icons.isEmpty || sid = "" then
    (.badRequest, c)
  else
    (.ok icons.length,
      set_selection c sid ⟨.completed, sid, now, true, icons⟩)

/-- The fresh WAITING record written when a websocket opens. -/
def waiting_record (sid : String) (now : Int) : SelectionData κ :=
  ⟨.waiting, sid, now, true, []⟩

/-- The FAILED record written by the disconnect path. -/
def failed_record (sid : String) (now : Int) : SelectionData κ :=
  ⟨.failed, sid, now, false, []⟩

/-- Connection-open half of `WebServer._handle_websocket` (lines 221-234):
a non-empty searchId unconditionally gets a fresh WAITING record. -/
def ws_open (c : CacheManager ι σ κ) (now : Int) (sid : String) :
    CacheManager ι σ κ :=
  if sid = "" then c else set_selection c sid (waiting_record sid now)

/-- The re-read after the grace-period sleep in the `finally` block of
`_handle_websocket`: write FAILED only if the record is still WAITING. -/
def disconnect_recheck (c : CacheManager ι σ κ) (now : Int) (sid : String) :
    CacheManager ι σ κ :=
  match lookupAL c.selection_cache sid with
  | some s =>
    if s.status = .waiting then set_selection c sid (failed_record sid now) else c
  | none => c

/-- The whole `finally` block of `_handle_websocket` (lines 254-271).
`c0` is the cache when the close is detected; `f` is the environment's
interference with the shared cache during the 2-second grace sleep (other
handlers and racing submissions run concurrently); `now` is the clock at the
re-check.  Returns the final cache and the milliseconds slept. -/
def ws_close_handler (c0 : CacheManager ι σ κ) (sid : String)
    (f : CacheManager ι σ κ → CacheManager ι σ κ) (now : Int) :
    CacheManager ι σ κ × Nat :=
  if sid = "" then (c0, 0)
  else
    match lookupAL c0.selection_cache sid with
    | some s =>
      if s.status = .waiting then (disconnect_recheck (f c0) now sid, 2000)
      else (c0, 0)
    | none => (c0, 0)

/-- Error raised by `MCPIconServer._check_selection` when no search exists. -/
inductive CheckErr : Type
| noSearchFound (sid : String)
deriving DecidableEq

/-- Outcome of one `check_selection_status` call. -/
inductive PollOutcome (κ : Type) : Type
| completed (icons : List κ)
| failed
| timeoutOutcome
deriving DecidableEq

/-- One-read-then-sleep iterations of the `while` loop of
`_check_selection` (server.py lines 274-306), with the iteration budget `k`
explicit: each iteration reads the selection record, consumes a terminal
record immediately (deleting it), and otherwise sleeps 100 ms and retries.
No concurrent interference is modelled inside the loop; the third component
counts the 100 ms sleeps performed. -/
def poll_iters (sid : String) (c : CacheManager ι σ κ) :
    Nat → PollOutcome κ × CacheManager ι σ κ × Nat
| 0 => (.timeoutOutcome, c, 0)
| k + 1 =>
  match lookupAL c.selection_cache sid with
  | some s =>
    if s.status = .completed then
      (.completed s.selected_icons, delete_selection c sid, 0)
    else if s.status = .failed then
      (.failed, delete_selection c sid, 0)
    else
      let r := poll_iters sid c k
      (r.1, r.2.1, r.2.2 + 1)
  | none =>
    let r := poll_iters sid c k
    (r.1, r.2.1, r.2.2 + 1)

/-- The `while time.time() - start < max_wait_s` loop itself: with a 100 ms
sleep ending every non-terminal iteration, the condition
`elapsed < max_wait_ms` admits exactly `⌈max_wait_ms / 100⌉` reads. -/
def poll_loop (sid : String) (max_wait_ms : Nat) (c : CacheManager ι σ κ) :
    PollOutcome κ × CacheManager ι σ κ × Nat :=
  poll_iters sid c ((max_wait_ms + 99) / 100)

/-- `MCPIconServer._check_selection`: validate that a search exists (this
read may itself evict an expired search entry), then poll. -/
def check_selection (c : CacheManager ι σ κ) (now : Int) (sid : String)
    (max_wait_ms : Nat) :
    Except CheckErr (PollOutcome κ) × CacheManager ι σ κ × Nat :=
  match get_search c now sid with
  | (none, c1) => (.error (.noSearchFound sid), c1, 0)
  | (some _, c1) =>
    let r := poll_loop sid max_wait_ms c1
    (.ok r.1, r.2.1, r.2.2)

/-- What the upstream iconfont API returned (`data` of the JSON body). -/
structure FetchedData (κ : Type) : Type where
  code : Int
  icons : List κ
  count : Nat
deriving DecidableEq

/-- Outcome of the upstream HTTP call in `IconSearcher.search_icons`. -/
inductive FetchOutcome (κ : Type) : Type
| success (d : FetchedData κ)
| timedOut
| failure
deriving DecidableEq

/-- Errors raised by `IconSearcher.search_icons`. -/
inductive SearchErr : Type
| invalidPage
| invalidPageSize
| upstreamTimeout
| searchFailed
| badCode (code : Int)
deriving DecidableEq

/-- The result dict built by `IconSearcher.search_icons`. -/
structure SearchToolResult (κ : Type) : Type where
  search_id : String
  query : String
  count : Nat
  total_count : Nat
  page : Nat
  page_size : Nat
  icons : List κ
deriving DecidableEq

/-- The `cache_key` f-string of `IconSearcher.search_icons`. -/
def search_cache_key (q sort_type : String) (page page_size : Nat)
    (s_type : String) (from_collection : Int) (fills : String) : String :=
  "search_" ++ q ++ "_" ++ sort_type ++ "_" ++ toString page ++ "_" ++
    toString page_size ++ "_" ++ s_type ++ "_" ++ toString from_collection ++
    "_" ++ fills

/-- `IconSearcher.search_icons` from search.py: validate, consult the icon
cache keyed by the full parameter tuple, and only on a miss perform the
upstream fetch (`fetch` is its outcome), mint `fresh_id` (what
`_generate_search_id` would return) and write both caches.  The tool-level
defaults `s_type=""`, `from_collection=-1`, `fills=""` are fixed. -/
def search_icons (c : CacheManager (SearchToolResult κ) (SearchData κ) κ)
    (now : Int) (q sort_type : String) (page page_size : Nat)
    (fetch : FetchOutcome κ) (fresh_id : String) :
    Except SearchErr (SearchToolResult κ) ×
      CacheManager (SearchToolResult κ) (SearchData κ) κ :=
  if page < 1 then (.error .invalidPage, c)
  else if page_size < 1 || 100 < page_size then (.error .invalidPageSize, c)
  else
    let key := search_cache_key q sort_type page page_size "" (-1) ""
    match get_icon c now key with
    | (some r, c1) => (.ok r, c1)
    | (none, c1) =>
      match fetch with
      | .timedOut => (.error .upstreamTimeout, c1)
      | .failure => (.error .searchFailed, c1)
      | .success d =>
        if d.code ≠ 200 then (.error (.badCode d.code), c1)
        else
          let result : SearchToolResult κ :=
            ⟨fresh_id, q, d.icons.length, d.count, page, page_size, d.icons⟩
          let c2 := set_icon c1 now key result
          let c3 := set_search c2 now fresh_id
            ⟨q, page, page_size, d.icons, d.count, now⟩
          (.ok result, c3)

section DictLemmas

variable {β : Type}

theorem lookupAL_eraseAL_self (m : List (String × β)) (k : String) :
    lookupAL (eraseAL m k) k = none := by
  induction m with
  | nil => rfl
  | cons p rest ih =>
    by_cases h : p.1 = k
    · simpa [eraseAL, h] using ih
    · simpa [eraseAL, lookupAL, h] using ih

theorem lookupAL_eraseAL_ne (m : List (String × β)) (k k' : String)
    (h : k' ≠ k) : lookupAL (eraseAL m k) k' = lookupAL m k' := by
  induction m with
  | nil => rfl
  | cons p rest ih =>
    by_cases hp : p.1 = k
    · have hne : p.1 ≠ k' := fun hk => h (hk ▸ hp)
      simp only [eraseAL, if_pos hp, ih, lookupAL, if_neg hne]
    · by_cases hq : p.1 = k'
      · simp only [eraseAL, if_neg hp, lookupAL, if_pos hq]
      · simp only [eraseAL, if_neg hp, lookupAL, if_neg hq, ih]

theorem lookupAL_append (l1 l2 : List (String × β)) (k : String) :
    lookupAL (l1 ++ l2) k =
      (match lookupAL l1 k with
       | some v => some v
       | none => lookupAL l2 k) := by
  induction l1 with
  | nil => simp [lookupAL]
  | cons p rest ih =>
    by_cases h : p.1 = k
    · simp [lookupAL, h]
    · simp [lookupAL, h, ih]

theorem lookupAL_setAL_self (m : List (String × β)) (k : String) (v : β) :
    lookupAL (setAL m k v) k = some v := by
  simp [setAL, lookupAL_append, lookupAL_eraseAL_self, lookupAL]

theorem lookupAL_setAL_ne (m : List (String × β)) (k k' : String) (v : β)
    (h : k' ≠ k) : lookupAL (setAL m k v) k' = lookupAL m k' := by
  simp [setAL, lookupAL_append, lookupAL_eraseAL_ne m k k' h, lookupAL,
    Ne.symm h]
  cases lookupAL m k' <;> simp

theorem eraseAL_append (l1 l2 : List (String × β)) (k : String) :
    eraseAL (l1 ++ l2) k = eraseAL l1 k ++ eraseAL l2 k := by
  induction l1 with
  | nil => rfl
  | cons p rest ih =>
    by_cases h : p.1 = k <;> simp [eraseAL, h, ih]

theorem eraseAL_idem (m : List (String × β)) (k : String) :
    eraseAL (eraseAL m k) k = eraseAL m k := by
  induction m with
  | nil => rfl
  | cons p rest ih =>
    by_cases h : p.1 = k <;> simp [eraseAL, h, ih]

theorem eraseAL_setAL_self (m : List (String × β)) (k : String) (v : β) :
    eraseAL (setAL m k v) k = eraseAL m k := by
  simp [setAL, eraseAL_append, eraseAL_idem, eraseAL]

theorem length_setAL (m : List (String × β)) (k : String) (v : β) :
    (setAL m k v).length = (eraseAL m k).length + 1 := by
  simp [setAL]

theorem eraseAL_of_not_mem_keys (m : List (String × β)) (k : String)
    (h : k ∉ m.map Prod.fst) : eraseAL m k = m := by
  induction m with
  | nil => rfl
  | cons p rest ih =>
    simp only [List.map_cons, List.mem_cons] at h
    push_neg at h
    have h1 : p.1 ≠ k := fun hp => h.1 hp.symm
    simp [eraseAL, h1, ih h.2]

end DictLemmas

/-- C7: in each timestamped namespace (icon, search), `set` at time `t0`
followed by `get` at any time `now` within the TTL returns the stored value
and leaves the cache unchanged; once the entry's age exceeds the TTL, the
same `get` returns absent, evicts the entry in that very call, and the
resulting cache's `stats` total for that namespace is one less than before
the eviction. -/
theorem cache_set_get_ttl {ι σ κ : Type} (c : CacheManager ι σ κ)
    (t0 now : Int) (key : String) (v : ι) (w : σ) :
    ((now - t0 ≤ c.expiry_seconds →
        get_icon (set_icon c t0 key v) now key = (some v, set_icon c t0 key v)) ∧
     (c.expiry_seconds < now - t0 →
        (get_icon (set_icon c t0 key v) now key).1 = none ∧
        lookupAL (get_icon (set_icon c t0 key v) now key).2.icon_cache key = none ∧
        (get_stats (get_icon (set_icon c t0 key v) now key).2 now).icon_total + 1 =
          (get_stats (set_icon c t0 key v) now).icon_total)) ∧
    ((now - t0 ≤ c.expiry_seconds →
        get_search (set_search c t0 key w) now key = (some w, set_search c t0 key w)) ∧
     (c.expiry_seconds < now - t0 →
        (get_search (set_search c t0 key w) now key).1 = none ∧
        lookupAL (get_search (set_search c t0 key w) now key).2.search_cache key = none ∧
        (get_stats (get_search (set_search c t0 key w) now key).2 now).search_total + 1 =
          (get_stats (set_search c t0 key w) now).search_total)) := by
  constructor
  · constructor
    · intro h
      simp only [get_icon, set_icon, lookupAL_setAL_self]
      rw [if_neg (not_lt.mpr h)]
    · intro h
      simp only [get_icon, set_icon, lookupAL_setAL_self]
      rw [if_pos h]
      refine ⟨rfl, ?_, ?_⟩
      · exact eraseAL_setAL_self c.icon_cache key ⟨v, t0, key⟩ ▸
          lookupAL_eraseAL_self c.icon_cache key
      · simp only [get_stats]
        rw [eraseAL_setAL_self, length_setAL]
  · constructor
    · intro h
      simp only [get_search, set_search, lookupAL_setAL_self]
      rw [if_neg (not_lt.mpr h)]
    · intro h
      simp only [get_search, set_search, lookupAL_setAL_self]
      rw [if_pos h]
      refine ⟨rfl, ?_, ?_⟩
      · exact eraseAL_setAL_self c.search_cache key ⟨w, t0, key⟩ ▸
          lookupAL_eraseAL_self c.search_cache key
      · simp only [get_stats]
        rw [eraseAL_setAL_self, length_setAL]

/-- A concrete empty cache over `Nat` payloads, TTL 1800 seconds. -/
def cmN : CacheManager Nat Nat Nat :=
  ⟨1800, [], [], []⟩

/-- Witness for C7 at a concrete cache: a fresh read at age 1800 hits, a
read at age 1801 evicts. -/
theorem cache_set_get_ttl_witness :
    get_icon (set_icon cmN 0 "k" 5) 1800 "k" = (some 5, set_icon cmN 0 "k" 5) ∧
    (get_icon (set_icon cmN 0 "k" 5) 1801 "k").1 = none ∧
    lookupAL (get_icon (set_icon cmN 0 "k" 5) 1801 "k").2.icon_cache "k" = none ∧
    (get_stats (get_icon (set_icon cmN 0 "k" 5) 1801 "k").2 1801).icon_total + 1 =
      (get_stats (set_icon cmN 0 "k" 5) 1801).icon_total ∧
    get_search (set_search cmN 0 "k" 7) 1800 "k" = (some 7, set_search cmN 0 "k" 7) := by
  have h1 := (cache_set_get_ttl cmN 0 1800 "k" 5 7).1.1 (by decide)
  have h2 := (cache_set_get_ttl cmN 0 1801 "k" 5 7).1.2 (by decide)
  have h3 := (cache_set_get_ttl cmN 0 1800 "k" 5 7).2.1 (by decide)
  exact ⟨h1, h2.1, h2.2.1, h2.2.2, h3⟩

theorem clear_expired_ns_cons_not_mem {α : Type} (now exp : Int)
    (keys : List String) (k : String) (e : CacheEntry α)
    (m : List (String × CacheEntry α)) (hk : k ∉ keys) :
    clear_expired_ns now exp keys ((k, e) :: m) =
      ((clear_expired_ns now exp keys m).1,
        (k, e) :: (clear_expired_ns now exp keys m).2) := by
  induction keys generalizing m with
  | nil => rfl
  | cons k' ks ih =>
    simp only [List.mem_cons] at hk
    push_neg at hk
    have hne : k ≠ k' := hk.1
    simp only [clear_expired_ns, lookupAL, if_neg hne]
    cases hl : lookupAL m k' with
    | none => exact ih m hk.2
    | some e' =>
      by_cases hexp : exp < now - e'.timestamp
      · simp only [if_pos hexp, eraseAL, if_neg hne, ih (eraseAL m k') hk.2]
      · simp only [if_neg hexp, ih m hk.2]

theorem clear_expired_ns_eq_filter {α : Type} (now exp : Int)
    (m : List (String × CacheEntry α)) (hm : (m.map Prod.fst).Nodup) :
    clear_expired_ns now exp (m.map Prod.fst) m =
      ((m.filter fun p => decide (exp < now - p.2.timestamp)).length,
        m.filter fun p => decide (now - p.2.timestamp ≤ exp)) := by
  induction m with
  | nil => rfl
  | cons p rest ih =>
    obtain ⟨k, e⟩ := p
    simp only [List.map_cons, List.nodup_cons] at hm
    have hmem : (k : String) ∉ rest.map Prod.fst := hm.1
    simp only [clear_expired_ns, lookupAL, if_pos rfl]
    by_cases hexp : exp < now - e.timestamp
    · have hvalid : ¬ now - e.timestamp ≤ exp := not_le.mpr hexp
      simp [clear_expired_ns, lookupAL, eraseAL,
        eraseAL_of_not_mem_keys rest k hmem, ih hm.2, List.filter_cons,
        hexp, hvalid]
      rw [if_neg (by omega)]
    · have hvalid : now - e.timestamp ≤ exp := not_lt.mp hexp
      simp [clear_expired_ns, lookupAL,
        clear_expired_ns_cons_not_mem now exp (rest.map Prod.fst) k e rest hmem,
        ih hm.2, List.filter_cons, hexp, hvalid]
      rw [if_pos (by omega)]

/-- C8: `clear(expiredOnly=true)` removes exactly the icon and search entries
older than the TTL (what remains is exactly the entries with age at most the
TTL) and returns the exact per-namespace counts removed;
`clear(expiredOnly=false)` empties both timestamped namespaces and returns
their prior sizes; in both modes the selection namespace is untouched. -/
theorem clear_cache_spec {ι σ κ : Type} (c : CacheManager ι σ κ) (now : Int)
    (hni : nodupKeys c.icon_cache) (hns : nodupKeys c.search_cache) :
    clear c now true =
      (((c.icon_cache.filter fun p =>
            decide (c.expiry_seconds < now - p.2.timestamp)).length,
        (c.search_cache.filter fun p =>
            decide (c.expiry_seconds < now - p.2.timestamp)).length),
        { c with
            icon_cache := c.icon_cache.filter fun p =>
              decide (now - p.2.timestamp ≤ c.expiry_seconds)
            search_cache := c.search_cache.filter fun p =>
              decide (now - p.2.timestamp ≤ c.expiry_seconds) }) ∧
    clear c now false =
      ((c.icon_cache.length, c.search_cache.length),
        { c with icon_cache := [], search_cache := [] }) ∧
    (clear c now true).2.selection_cache = c.selection_cache ∧
    (clear c now false).2.selection_cache = c.selection_cache := by
  have hi := clear_expired_ns_eq_filter now c.expiry_seconds c.icon_cache hni
  have hs := clear_expired_ns_eq_filter now c.expiry_seconds c.search_cache hns
  refine ⟨?_, rfl, ?_, rfl⟩
  · simp [clear, hi, hs]
  · simp [clear, hi, hs]

/-- A concrete cache for the C8 witness: one valid and one expired icon
entry, one expired search entry, one selection record. -/
def cmClear : CacheManager Nat Nat Nat :=
  ⟨1800,
    [("a", ⟨1, 0, "a"⟩), ("b", ⟨2, 3000, "b"⟩)],
    [("s", ⟨9, 100, "s"⟩)],
    [("sel", ⟨.waiting, "sel", 0, true, []⟩)]⟩

/-- Witness for C8 at a concrete cache observed at time 4000: the expired
sweep removes one icon entry and one search entry, keeps the valid icon
entry, and neither mode touches the selection namespace. -/
theorem clear_cache_spec_witness :
    clear cmClear 4000 true =
      ((1, 1),
        ⟨1800, [("b", ⟨2, 3000, "b"⟩)], [],
          [("sel", ⟨.waiting, "sel", 0, true, []⟩)]⟩) ∧
    clear cmClear 4000 false =
      ((2, 1), ⟨1800, [], [], [("sel", ⟨.waiting, "sel", 0, true, []⟩)]⟩) := by
  have h := clear_cache_spec cmClear 4000 (by unfold nodupKeys; decide)
    (by unfold nodupKeys; decide)
  exact ⟨by rw [h.1]; decide, by rw [h.2.1]; decide⟩

/-- C6: for a cached (unexpired) search, the pagination endpoint returns the
slice of the cached icon list starting at `(page-1)*pageSize` of length at
most `pageSize` (characterised element-wise), together with
`totalPages = max 1 ⌈n / pageSize⌉` — which is the least page count `k ≥ 1`
with `n ≤ pageSize * k`; a page past the end yields an empty slice and still
a non-error response, and an unknown searchId yields a not-found error.
The cache itself is left unchanged on a valid hit. -/
theorem handle_cache_api_pagination {ι κ : Type}
    (c : CacheManager ι (SearchData κ) κ) (now : Int) (sid : String)
    (page pageSize : Nat) (hp : 1 ≤ page) (hps : 1 ≤ pageSize) :
    (∀ e, lookupAL c.search_cache sid = some e →
      now - e.timestamp ≤ c.expiry_seconds →
      handle_cache_api c now sid page pageSize =
        (.ok ((e.data.icons.drop ((page - 1) * pageSize)).take pageSize)
          ((e.data.icons.drop ((page - 1) * pageSize)).take pageSize).length
          e.data.total_count page pageSize
          (max 1 (e.data.icons.length ⌈/⌉ pageSize)), c) ∧
      ((e.data.icons.drop ((page - 1) * pageSize)).take pageSize).length =
        min pageSize (e.data.icons.length - (page - 1) * pageSize) ∧
      (∀ i, i < pageSize →
        ((e.data.icons.drop ((page - 1) * pageSize)).take pageSize)[i]? =
          e.data.icons[(page - 1) * pageSize + i]?) ∧
      (e.data.icons.length ≤ (page - 1) * pageSize →
        (e.data.icons.drop ((page - 1) * pageSize)).take pageSize = []) ∧
      e.data.icons.length ≤ pageSize * max 1 (e.data.icons.length ⌈/⌉ pageSize) ∧
      (∀ k, 1 ≤ k → e.data.icons.length ≤ pageSize * k →
        max 1 (e.data.icons.length ⌈/⌉ pageSize) ≤ k)) ∧
    (lookupAL c.search_cache sid = none →
      handle_cache_api c now sid page pageSize = (.notFound, c)) := by
  constructor
  · intro e he hage
    have hpos : 0 < pageSize := hps
    refine ⟨?_, ?_, ?_, ?_, ?_, ?_⟩
    · simp only [handle_cache_api, get_search, he]
      rw [if_neg (not_lt.mpr hage)]
      rw [Nat.ceilDiv_eq_add_pred_div]
    · rw [List.length_take, List.length_drop]
    · intro i hi
      rw [List.getElem?_take, if_pos hi, List.getElem?_drop]
    · intro hpast
      rw [List.drop_eq_nil_of_le hpast, List.take_nil]
    · calc e.data.icons.length
          ≤ pageSize • (e.data.icons.length ⌈/⌉ pageSize) := le_smul_ceilDiv hpos
        _ = pageSize * (e.data.icons.length ⌈/⌉ pageSize) := smul_eq_mul ..
        _ ≤ pageSize * max 1 (e.data.icons.length ⌈/⌉ pageSize) :=
            Nat.mul_le_mul_left pageSize (le_max_right _ _)
    · intro k hk1 hkn
      refine max_le hk1 ?_
      rw [ceilDiv_le_iff_le_smul hpos, smul_eq_mul]
      exact hkn
  · intro hnone
    simp only [handle_cache_api, get_search, hnone]

/-- A concrete cache for the C6 witness: a SearchRecord with 23 icons. -/
def cmPag : CacheManager Nat (SearchData Nat) Nat :=
  ⟨1800, [],
    [("s23", ⟨⟨"q", 1, 100, List.range 23, 23, 0⟩, 0, "s23"⟩)],
    []⟩

/-- Witness for C6: with 23 cached items and pageSize 10, page 3 returns the
last 3 items with totalPages 3; page 4 returns an empty slice without error;
an unknown searchId is a not-found error. -/
theorem handle_cache_api_pagination_witness :
    handle_cache_api cmPag 0 "s23" 3 10 =
      (.ok [20, 21, 22] 3 23 3 10 3, cmPag) ∧
    handle_cache_api cmPag 0 "s23" 4 10 =
      (.ok [] 0 23 4 10 3, cmPag) ∧
    handle_cache_api cmPag 0 "zzz" 1 10 = (.notFound, cmPag) := by
  have e3 := (handle_cache_api_pagination cmPag 0 "s23" 3 10 (by decide)
    (by decide)).1 ⟨⟨"q", 1, 100, List.range 23, 23, 0⟩, 0, "s23"⟩ (by rfl)
    (by decide)
  have e4 := (handle_cache_api_pagination cmPag 0 "s23" 4 10 (by decide)
    (by decide)).1 ⟨⟨"q", 1, 100, List.range 23, 23, 0⟩, 0, "s23"⟩ (by rfl)
    (by decide)
  have e0 := (handle_cache_api_pagination cmPag 0 "zzz" 1 10 (by decide)
    (by decide)).2 (by rfl)
  refine ⟨?_, ?_, e0⟩
  · rw [e3.1]; decide
  · rw [e4.1]; decide

/-- C9: opening a websocket for a non-empty searchId unconditionally
overwrites the selection record with a fresh WAITING record (connected, empty
item list), whatever record — including a terminal COMPLETED or FAILED one —
was there before; only the selection namespace changes.  An empty searchId
leaves the cache entirely untouched. -/
theorem ws_open_overwrites_selection {ι σ κ : Type} (c : CacheManager ι σ κ)
    (now : Int) (sid : String) :
    (sid ≠ "" →
      get_selection (ws_open c now sid) sid =
        some ⟨.waiting, sid, now, true, ([] : List κ)⟩ ∧
      (ws_open c now sid).icon_cache = c.icon_cache ∧
      (ws_open c now sid).search_cache = c.search_cache ∧
      (∀ sid2, sid2 ≠ sid →
        get_selection (ws_open c now sid) sid2 = get_selection c sid2)) ∧
    (sid = "" → ws_open c now sid = c) := by
  constructor
  · intro h
    refine ⟨?_, ?_, ?_, ?_⟩
    · simp only [ws_open, if_neg h, get_selection, set_selection,
        waiting_record, lookupAL_setAL_self]
    · simp [ws_open, if_neg h, set_selection]
    · simp [ws_open, if_neg h, set_selection]
    · intro sid2 h2
      simp only [ws_open, if_neg h, get_selection, set_selection,
        lookupAL_setAL_ne _ _ _ _ h2]
  · intro h
    simp [ws_open, h]

/-- A concrete cache holding a COMPLETED record for the C9 witness. -/
def cmDone : CacheManager Nat Nat Nat :=
  ⟨1800, [], [], [("s1", ⟨.completed, "s1", 5, true, [42]⟩)]⟩

/-- Witness for C9: reconnecting over a COMPLETED record yields a fresh
WAITING record; an empty searchId changes nothing. -/
theorem ws_open_overwrites_selection_witness :
    get_selection (ws_open cmDone 9 "s1") "s1" =
      some ⟨.waiting, "s1", 9, true, []⟩ ∧
    ws_open cmDone 9 "" = cmDone := by
  have h := ws_open_overwrites_selection cmDone 9 "s1"
  have h2 := ws_open_overwrites_selection cmDone 9 ""
  exact ⟨(h.1 (by decide)).1, h2.2 rfl⟩

/-- C1: when a close is detected while the record is WAITING, the handler
sleeps the 2-second grace period and re-reads; whatever the environment `f`
did to the shared cache meanwhile, FAILED is written exactly when the re-read
still finds WAITING; a racing submission that wrote COMPLETED (or any other
non-WAITING status) before the re-check is left untouched — in particular a
COMPLETED record is never downgraded to FAILED. -/
theorem ws_close_grace_recheck_guard {ι σ κ : Type}
    (c0 : CacheManager ι σ κ) (sid : String) (s0 : SelectionData κ)
    (f : CacheManager ι σ κ → CacheManager ι σ κ) (now : Int)
    (hsid : sid ≠ "") (h0 : lookupAL c0.selection_cache sid = some s0)
    (hw : s0.status = .waiting) :
    (ws_close_handler c0 sid f now).2 = 2000 ∧
    (∀ s1, lookupAL (f c0).selection_cache sid = some s1 →
      (s1.status = .waiting →
        get_selection (ws_close_handler c0 sid f now).1 sid =
          some (failed_record sid now)) ∧
      (s1.status ≠ .waiting →
        (ws_close_handler c0 sid f now).1 = f c0 ∧
        get_selection (ws_close_handler c0 sid f now).1 sid = some s1)) ∧
    (lookupAL (f c0).selection_cache sid = none →
      (ws_close_handler c0 sid f now).1 = f c0) := by
  have hred : ws_close_handler c0 sid f now =
      (disconnect_recheck (f c0) now sid, 2000) := by
    simp only [ws_close_handler, if_neg hsid, h0, hw]
    rfl
  refine ⟨by rw [hred], ?_, ?_⟩
  · intro s1 h1
    constructor
    · intro h1w
      rw [hred]
      simp only [disconnect_recheck, h1, if_pos h1w, get_selection,
        set_selection, lookupAL_setAL_self]
    · intro h1w
      rw [hred]
      have heq : disconnect_recheck (f c0) now sid = f c0 := by
        simp only [disconnect_recheck, h1, if_neg h1w]
      refine ⟨heq, ?_⟩
      rw [heq]
      exact h1
  · intro h1
    rw [hred]
    simp only [disconnect_recheck, h1]

/-- The environment action for the C1 witness: a submission for "s1"
arriving during the grace period. -/
def submitDuringGrace (c : CacheManager Nat Nat Nat) : CacheManager Nat Nat Nat :=
  (handle_save_api c 1 "s1" [42]).2

/-- A concrete cache holding a WAITING record for the C1 witness. -/
def cmWait : CacheManager Nat Nat Nat :=
  ⟨1800, [], [], [("s1", ⟨.waiting, "s1", 0, true, []⟩)]⟩

/-- Witness for C1: a submission racing the disconnect wins — after the
grace period the record is still the submitted COMPLETED one. -/
theorem ws_close_grace_recheck_guard_witness :
    (ws_close_handler cmWait "s1" submitDuringGrace 2).2 = 2000 ∧
    get_selection (ws_close_handler cmWait "s1" submitDuringGrace 2).1 "s1" =
      some ⟨.completed, "s1", 1, true, [42]⟩ := by
  have h := ws_close_grace_recheck_guard cmWait "s1"
    ⟨.waiting, "s1", 0, true, []⟩ submitDuringGrace 2 (by decide) (by rfl) rfl
  have hl : lookupAL (submitDuringGrace cmWait).selection_cache "s1" =
      some ⟨.completed, "s1", 1, true, [42]⟩ := by rfl
  exact ⟨h.1, ((h.2.1 _ hl).2 (by decide)).2⟩

/-- The environment action for the C2 analysis: the browser reconnects for
"s1" during the grace period, writing a fresh WAITING record. -/
def reconnectDuringGrace (c : CacheManager Nat Nat Nat) : CacheManager Nat Nat Nat :=
  ws_open c 1 "s1"

/-- C2 (code behaviour at the claimed scenario): open at t=0, close detected
while WAITING, reconnect at t=1 within the 2-second grace period — the
re-check still sees a WAITING status (the refreshed record is
indistinguishable from the original by status alone), so the handler DOES
write FAILED over the reconnected session's record, contradicting the claim
that no FAILED is ever written and the record remains WAITING. -/
theorem ws_reconnect_within_grace_still_failed :
    get_selection
        (ws_close_handler (ws_open cmN 0 "s1") "s1" reconnectDuringGrace 2).1
        "s1" =
      some ⟨.failed, "s1", 2, false, []⟩ ∧
    (ws_close_handler (ws_open cmN 0 "s1") "s1" reconnectDuringGrace 2).2 = 2000 := by
  constructor <;> rfl

theorem poll_iters_of_none {ι σ κ : Type} (c : CacheManager ι σ κ)
    (sid : String) (h : lookupAL c.selection_cache sid = none) (k : Nat) :
    poll_iters sid c k = (PollOutcome.timeoutOutcome, c, k) := by
  induction k with
  | zero => rfl
  | succ m ih => simp only [poll_iters, h, ih]

theorem poll_loop_of_none {ι σ κ : Type} (c : CacheManager ι σ κ)
    (sid : String) (h : lookupAL c.selection_cache sid = none) (n : Nat) :
    (poll_loop sid n c).1 = PollOutcome.timeoutOutcome ∧
    (poll_loop sid n c).2.1 = c := by
  rw [poll_loop, poll_iters_of_none c sid h]
  exact ⟨rfl, rfl⟩

/-- C5: a poll for a searchId with no search record in the search cache
fails immediately with the no-such-search error: the loop is never entered,
nothing sleeps, and the cache — in particular the selection namespace — is
returned exactly as it was. -/
theorem check_selection_no_search_fails_fast {ι σ κ : Type}
    (c : CacheManager ι σ κ) (now : Int) (sid : String) (maxw : Nat)
    (h : lookupAL c.search_cache sid = none) :
    check_selection c now sid maxw =
      (.error (.noSearchFound sid), c, 0) := by
  simp only [check_selection, get_search, h]

/-- Witness for C5 at the empty cache. -/
theorem check_selection_no_search_fails_fast_witness :
    check_selection cmN 0 "nope" 180000 =
      (.error (.noSearchFound "nope"), cmN, 0) :=
  check_selection_no_search_fails_fast cmN 0 "nope" 180000 rfl

/-- C4: with an existing unexpired search record and a WAITING (or absent)
selection record, a poll whose budget is smaller than one 100 ms polling
interval returns the timeout outcome as an ordinary non-error result, leaves
the whole cache (hence the selection record) untouched, and sleeps at most
once (not at all when the budget is 0). -/
theorem check_selection_subinterval_timeout {ι σ κ : Type}
    (c : CacheManager ι σ κ) (now : Int) (sid : String) (e : CacheEntry σ)
    (maxw : Nat) (hs : lookupAL c.search_cache sid = some e)
    (hvalid : now - e.timestamp ≤ c.expiry_seconds) (hm : maxw < 100)
    (hsel : lookupAL c.selection_cache sid = none ∨
      ∃ s, lookupAL c.selection_cache sid = some s ∧
        s.status = SelectionStatus.waiting) :
    check_selection c now sid maxw =
      (.ok .timeoutOutcome, c, if maxw = 0 then 0 else 1) := by
  have hget : get_search c now sid = (some e.data, c) := by
    simp only [get_search, hs]
    rw [if_neg (not_lt.mpr hvalid)]
  have hloop : poll_loop sid maxw c =
      (PollOutcome.timeoutOutcome (κ := κ), c, if maxw = 0 then 0 else 1) := by
    rcases Nat.eq_zero_or_pos maxw with h0 | hpos
    · have hk : (maxw + 99) / 100 = 0 := by omega
      rw [poll_loop, hk, if_pos h0]
      rfl
    · have hk : (maxw + 99) / 100 = 1 := by omega
      rw [poll_loop, hk, if_neg (by omega)]
      rcases hsel with hnone | ⟨s, hsome, hw⟩
      · simp only [poll_iters, hnone]
      · have hc : s.status ≠ SelectionStatus.completed := by
          rw [hw]; intro hh; exact SelectionStatus.noConfusion hh
        have hf : s.status ≠ SelectionStatus.failed := by
          rw [hw]; intro hh; exact SelectionStatus.noConfusion hh
        simp only [poll_iters, hsome, if_neg hc, if_neg hf]
  simp only [check_selection, hget, hloop]

/-- Cache for the C4 witness: one valid search record, WAITING selection. -/
def cmWait2 : CacheManager Nat Nat Nat :=
  ⟨1800, [], [("s1", ⟨0, 0, "s1"⟩)],
    [("s1", ⟨.waiting, "s1", 0, true, []⟩)]⟩

/-- Witness for C4: budgets 0 and 99 both time out and change nothing. -/
theorem check_selection_subinterval_timeout_witness :
    check_selection cmWait2 0 "s1" 0 = (.ok .timeoutOutcome, cmWait2, 0) ∧
    check_selection cmWait2 0 "s1" 99 = (.ok .timeoutOutcome, cmWait2, 1) := by
  have h0 := check_selection_subinterval_timeout cmWait2 0 "s1" ⟨0, 0, "s1"⟩ 0
    (by rfl) (by decide) (by decide)
    (Or.inr ⟨⟨.waiting, "s1", 0, true, []⟩, by rfl, rfl⟩)
  have h99 := check_selection_subinterval_timeout cmWait2 0 "s1" ⟨0, 0, "s1"⟩ 99
    (by rfl) (by decide) (by decide)
    (Or.inr ⟨⟨.waiting, "s1", 0, true, []⟩, by rfl, rfl⟩)
  exact ⟨h0, h99⟩

/-- C3 (amended): a poll that reads a terminal selection record returns that
outcome without sleeping — success carrying the submitted items for
COMPLETED, failure for FAILED — and deletes the selection record before
returning.  A subsequent poll on the same searchId does NOT fail with the
not-found error: the search record still exists, so (absent further
selection writes) it returns the ordinary timeout outcome. -/
theorem check_selection_terminal_consumes {ι σ κ : Type}
    (c : CacheManager ι σ κ) (now : Int) (sid : String) (e : CacheEntry σ)
    (maxw : Nat) (hs : lookupAL c.search_cache sid = some e)
    (hvalid : now - e.timestamp ≤ c.expiry_seconds) (hm : 1 ≤ maxw)
    (s : SelectionData κ) (hsel : lookupAL c.selection_cache sid = some s) :
    (s.status = .completed →
      check_selection c now sid maxw =
        (.ok (.completed s.selected_icons), delete_selection c sid, 0)) ∧
    (s.status = .failed →
      check_selection c now sid maxw =
        (.ok .failed, delete_selection c sid, 0)) ∧
    get_selection (delete_selection c sid) sid = none ∧
    (∀ now2 maxw2, now2 - e.timestamp ≤ c.expiry_seconds →
      (check_selection (delete_selection c sid) now2 sid maxw2).1 =
        .ok .timeoutOutcome ∧
      (check_selection (delete_selection c sid) now2 sid maxw2).2.1 =
        delete_selection c sid) := by
  have hget : get_search c now sid = (some e.data, c) := by
    simp only [get_search, hs]
    rw [if_neg (not_lt.mpr hvalid)]
  obtain ⟨m, hk⟩ : ∃ m, (maxw + 99) / 100 = m + 1 :=
    ⟨(maxw + 99) / 100 - 1, by omega⟩
  have hdelsel : lookupAL (delete_selection c sid).selection_cache sid = none := by
    simp only [delete_selection]
    exact lookupAL_eraseAL_self c.selection_cache sid
  refine ⟨?_, ?_, hdelsel, ?_⟩
  · intro hc
    simp only [check_selection, hget, poll_loop, hk, poll_iters, hsel,
      if_pos hc]
  · intro hf
    have hnc : s.status ≠ SelectionStatus.completed := by
      rw [hf]; intro hh; exact SelectionStatus.noConfusion hh
    simp only [check_selection, hget, poll_loop, hk, poll_iters, hsel,
      if_neg hnc, if_pos hf]
  · intro now2 maxw2 httl
    have hget2 : get_search (delete_selection c sid) now2 sid =
        (some e.data, delete_selection c sid) := by
      simp only [get_search, delete_selection, hs]
      rw [if_neg (not_lt.mpr httl)]
    have hp := poll_loop_of_none (delete_selection c sid) sid hdelsel maxw2
    constructor
    · simp only [check_selection, hget2]
      rw [hp.1]
    · simp only [check_selection, hget2]
      rw [hp.2]

/-- Cache for the C3 analysis: valid search record and COMPLETED selection. -/
def cmCons : CacheManager Nat Nat Nat :=
  ⟨1800, [], [("s1", ⟨0, 0, "s1"⟩)],
    [("s1", ⟨.completed, "s1", 0, true, [7]⟩)]⟩

/-- C3 counterexample: after the first poll consumes the COMPLETED record,
a second poll on the same searchId does not fail with the not-found error
the claim requires — the search record is still cached, so the second poll
returns the ordinary timeout outcome. -/
theorem await_after_consume_not_notfound :
    check_selection cmCons 0 "s1" 180000 =
      (.ok (.completed [7]), ⟨1800, [], [("s1", ⟨0, 0, "s1"⟩)], []⟩, 0) ∧
    (check_selection (⟨1800, [], [("s1", ⟨0, 0, "s1"⟩)], []⟩ :
        CacheManager Nat Nat Nat) 0 "s1" 250).1 = .ok .timeoutOutcome ∧
    (check_selection (⟨1800, [], [("s1", ⟨0, 0, "s1"⟩)], []⟩ :
        CacheManager Nat Nat Nat) 0 "s1" 250).1 ≠
      .error (.noSearchFound "s1") := by
  refine ⟨rfl, rfl, ?_⟩
  intro h
  rw [show (check_selection (⟨1800, [], [("s1", ⟨0, 0, "s1"⟩)], []⟩ :
      CacheManager Nat Nat Nat) 0 "s1" 250).1 =
      .ok .timeoutOutcome from rfl] at h
  exact Except.noConfusion h

/-- Witness for the amended C3 at the concrete cache `cmCons`. -/
theorem check_selection_terminal_consumes_witness :
    check_selection cmCons 0 "s1" 180000 =
      (.ok (.completed [7]), delete_selection cmCons "s1", 0) ∧
    get_selection (delete_selection cmCons "s1") "s1" = none ∧
    (check_selection (delete_selection cmCons "s1") 5 "s1" 300).1 =
      .ok .timeoutOutcome := by
  have h := check_selection_terminal_consumes cmCons 0 "s1" ⟨0, 0, "s1"⟩
    180000 (by rfl) (by decide) (by decide)
    ⟨.completed, "s1", 0, true, [7]⟩ (by rfl)
  exact ⟨h.1 rfl, h.2.2.1, (h.2.2.2 5 300 (by decide)).1⟩

/-- C10: a first search call with valid parameters, an icon-cache miss and a
successful upstream fetch returns a result carrying the freshly minted id
and stores it; a second call with the identical parameter tuple made while
that cached entry is within the TTL returns the very same result — same
searchId included — and leaves the cache completely unchanged (so no new
SearchRecord is written), irrespective of what the upstream would now return
or what fresh id would have been minted. -/
theorem search_icons_cached_identical {κ : Type}
    (c0 : CacheManager (SearchToolResult κ) (SearchData κ) κ) (t0 t1 : Int)
    (q st : String) (page psize : Nat) (d : FetchedData κ) (fid : String)
    (fetch2 : FetchOutcome κ) (fid2 : String)
    (hp : 1 ≤ page) (hps1 : 1 ≤ psize) (hps2 : psize ≤ 100)
    (hmiss : lookupAL c0.icon_cache
      (search_cache_key q st page psize "" (-1) "") = none)
    (hcode : d.code = 200) (httl : t1 - t0 ≤ c0.expiry_seconds) :
    (search_icons c0 t0 q st page psize (.success d) fid).1 =
      .ok ⟨fid, q, d.icons.length, d.count, page, psize, d.icons⟩ ∧
    search_icons (search_icons c0 t0 q st page psize (.success d) fid).2 t1
        q st page psize fetch2 fid2 =
      ((search_icons c0 t0 q st page psize (.success d) fid).1,
        (search_icons c0 t0 q st page psize (.success d) fid).2) := by
  have hnp : ¬ page < 1 := by omega
  have hnps : ¬ (decide (psize < 1) || decide (100 < psize)) = true := by
    simp only [Bool.or_eq_true, decide_eq_true_eq]
    omega
  have hget0 : get_icon c0 t0 (search_cache_key q st page psize "" (-1) "") =
      (none, c0) := by
    simp only [get_icon, hmiss]
  have hfirst : search_icons c0 t0 q st page psize (.success d) fid =
      (.ok ⟨fid, q, d.icons.length, d.count, page, psize, d.icons⟩,
        set_search
          (set_icon c0 t0 (search_cache_key q st page psize "" (-1) "")
            ⟨fid, q, d.icons.length, d.count, page, psize, d.icons⟩)
          t0 fid ⟨q, page, psize, d.icons, d.count, t0⟩) := by
    rw [search_icons, if_neg hnp, if_neg hnps]
    simp only [hget0]
    rw [if_neg (by rw [hcode]; intro hh; exact absurd hh (by norm_num))]
  refine ⟨by rw [hfirst], ?_⟩
  rw [hfirst]
  have hc1 : (set_search
      (set_icon c0 t0 (search_cache_key q st page psize "" (-1) "")
        ⟨fid, q, d.icons.length, d.count, page, psize, d.icons⟩)
      t0 fid ⟨q, page, psize, d.icons, d.count, t0⟩).icon_cache =
      setAL c0.icon_cache (search_cache_key q st page psize "" (-1) "")
        ⟨⟨fid, q, d.icons.length, d.count, page, psize, d.icons⟩, t0,
          search_cache_key q st page psize "" (-1) ""⟩ := rfl
  have hexp : (set_search
      (set_icon c0 t0 (search_cache_key q st page psize "" (-1) "")
        ⟨fid, q, d.icons.length, d.count, page, psize, d.icons⟩)
      t0 fid ⟨q, page, psize, d.icons, d.count, t0⟩).expiry_seconds =
      c0.expiry_seconds := rfl
  rw [search_icons, if_neg hnp, if_neg hnps]
  have hhit : get_icon (set_search
      (set_icon c0 t0 (search_cache_key q st page psize "" (-1) "")
        ⟨fid, q, d.icons.length, d.count, page, psize, d.icons⟩)
      t0 fid ⟨q, page, psize, d.icons, d.count, t0⟩) t1
      (search_cache_key q st page psize "" (-1) "") =
      (some ⟨fid, q, d.icons.length, d.count, page, psize, d.icons⟩,
        set_search
          (set_icon c0 t0 (search_cache_key q st page psize "" (-1) "")
            ⟨fid, q, d.icons.length, d.count, page, psize, d.icons⟩)
          t0 fid ⟨q, page, psize, d.icons, d.count, t0⟩) := by
    simp only [get_icon, hc1, lookupAL_setAL_self, hexp]
    rw [if_neg (not_lt.mpr httl)]
  simp only [hhit]

/-- The empty cache used by the C10 witness. -/
def cmSearch : CacheManager (SearchToolResult Nat) (SearchData Nat) Nat :=
  ⟨1800, [], [], []⟩

/-- Witness for C10: the repeat call returns the first call's result — with
the first call's searchId — and the unchanged cache, even though a different
id and a failing upstream are supplied the second time. -/
theorem search_icons_cached_identical_witness :
    (search_icons cmSearch 0 "home" "recommend" 1 5
      (.success ⟨200, [3, 4], 2⟩) "id1").1 =
      .ok ⟨"id1", "home", 2, 2, 1, 5, [3, 4]⟩ ∧
    search_icons (search_icons cmSearch 0 "home" "recommend" 1 5
        (.success ⟨200, [3, 4], 2⟩) "id1").2 1700
        "home" "recommend" 1 5 .failure "id2" =
      ((search_icons cmSearch 0 "home" "recommend" 1 5
          (.success ⟨200, [3, 4], 2⟩) "id1").1,
        (search_icons cmSearch 0 "home" "recommend" 1 5
          (.success ⟨200, [3, 4], 2⟩) "id1").2) :=
  search_icons_cached_identical cmSearch 0 1700 "home" "recommend" 1 5
    ⟨200, [3, 4], 2⟩ "id1" .failure "id2" (by decide) (by decide) (by decide)
    (by rfl) (by decide) (by decide)

end IconMcp
